import Mathlib

/-!
Verification of the container-image test harness of this repository.

The repository ships a small Go `testhelpers` package wrapping container
lifecycle management (start, wait-for-ready, exec, HTTP probe, teardown)
for container image tests.  Only the callers of that package and the
repository documentation are in the source tree, so the harness itself is
modelled from the specification and documentation, as a shallow embedding:
the environment is a partial map, a container runtime is an oracle
describing the observable behaviour of the container under test, and a
probe invocation returns the trace of lifecycle events it performed
together with its outcome.
-/

/-- Modelled from the spec: the body of `testhelpers.GetTestImage` is not under
`src/` (only its call sites in the `container-test.go` files and the repository
documentation are).  Per the spec (§4.1) and the repository docs ("Gets test
image from TEST_IMAGE env or uses default"), it returns the value of the
`TEST_IMAGE` environment variable when that variable is set and non-empty, and
the given default image reference otherwise.  The environment state is modelled
as a partial map from variable names to values. -/
def GetTestImage (env : String → Option String) (defaultImage : String) : String :=
  match env "TEST_IMAGE" with
  | some v => if v = "" then defaultImage else v
  | none => defaultImage

/-- C1: for every default image reference and every environment state, the
resolver returns the value of the designated environment variable when it is
set and non-empty, and returns the default otherwise (unset, or set but
empty). -/
theorem GetTestImage_resolution (env : String → Option String) (d : String) :
    (∀ v, env "TEST_IMAGE" = some v → v ≠ "" → GetTestImage env d = v) ∧
    ((env "TEST_IMAGE" = none ∨ env "TEST_IMAGE" = some "") → GetTestImage env d = d) := by
  constructor
  · intro v hv hne
    simp [GetTestImage, hv, hne]
  · rintro (h | h) <;> simp [GetTestImage, h]

/-- Witness for C1: with `TEST_IMAGE` set to a non-empty override the resolver
returns the override, and with an empty environment it returns the default. -/
theorem GetTestImage_resolution_witness :
    GetTestImage (fun k => if k = "TEST_IMAGE" then some "ghcr.io/other:tag" else none)
      "ghcr.io/example/app:rolling" = "ghcr.io/other:tag" ∧
    GetTestImage (fun _ => none) "ghcr.io/example/app:rolling" =
      "ghcr.io/example/app:rolling" := by
  constructor
  · exact (GetTestImage_resolution
      (fun k => if k = "TEST_IMAGE" then some "ghcr.io/other:tag" else none)
      "ghcr.io/example/app:rolling").1 "ghcr.io/other:tag" (by simp) (by decide)
  · exact (GetTestImage_resolution (fun _ => none) "ghcr.io/example/app:rolling").2
      (Or.inl rfl)

/-- C8: image reference resolution is total and never fails: for every default
string and every environment state the resolver returns a string that is
either the default or, verbatim, the non-empty value of the environment
variable — there is no error outcome and no validation or transformation of
the image string's format. -/
theorem GetTestImage_total (env : String → Option String) (d : String) :
    GetTestImage env d = d ∨
    ∃ v, env "TEST_IMAGE" = some v ∧ v ≠ "" ∧ GetTestImage env d = v := by
  rcases h : env "TEST_IMAGE" with _ | v
  · exact Or.inl (by simp [GetTestImage, h])
  · by_cases hv : v = ""
    · exact Or.inl (by simp [GetTestImage, h, hv])
    · exact Or.inr ⟨v, rfl, hv, by simp [GetTestImage, h, hv]⟩

/-- C10: the designated environment variable consulted by the resolver is the
single fixed name `TEST_IMAGE`: two environment states agreeing on
`TEST_IMAGE` yield the same resolution for every default image argument, so no
other variable and no property of the default influences which variable is
consulted. -/
theorem GetTestImage_only_reads_TEST_IMAGE (envA envB : String → Option String)
    (d : String) (h : envA "TEST_IMAGE" = envB "TEST_IMAGE") :
    GetTestImage envA d = GetTestImage envB d := by
  unfold GetTestImage
  rw [h]

/-- Witness for C10: an environment that differs from the empty one on every
variable except `TEST_IMAGE` resolves exactly as the empty one. -/
theorem GetTestImage_only_reads_TEST_IMAGE_witness :
    GetTestImage (fun k => if k = "TEST_IMAGE" then none else some "noise")
      "ghcr.io/example/app:rolling" =
    GetTestImage (fun _ => none) "ghcr.io/example/app:rolling" := by
  exact GetTestImage_only_reads_TEST_IMAGE
    (fun k => if k = "TEST_IMAGE" then none else some "noise") (fun _ => none)
    "ghcr.io/example/app:rolling" (by simp)

/-- Modelled from the spec: the Container Configuration (§3, §6) of the
`testhelpers` package, whose implementation is not under `src/` — an optional
set of environment-variable key/value pairs injected into the started
container; no other fields. -/
structure ContainerConfig where
  env : List (String × String)
deriving DecidableEq

/-- The environment actually injected: a missing (`none`) configuration
behaves as an empty one. -/
def configEnv : Option ContainerConfig → List (String × String)
  | none => []
  | some c => c.env

/-- Modelled from the spec: the three Probe Expectation variants of §3 — File
Presence, HTTP Check (path, port, expected status, optional body substring)
and Command Check (entrypoint, arguments, expected exit code, optional output
substring). -/
inductive Expectation where
  | file (path : String)
  | http (path : String) (port : Nat) (expectedStatus : Nat) (bodySubstring : Option String)
  | command (entrypoint : String) (args : List String) (expectedExit : Int)
      (outputSubstring : Option String)
deriving DecidableEq

/-- Modelled from the spec: the observable behaviour of the underlying
container-lifecycle provider (§6) for one image under test.  `startOk` says
whether the image can be pulled and a container created from it; `readyAt t`
is the readiness observation of the bounded poll at time `t`; `fileExists`,
`httpStatus`, `httpBody` describe the container filesystem and HTTP server;
`execOk` says whether an exec invocation itself can run (distinct from its
exit code, §7), and `execExit` / `execOutput` give the exit code and combined
output of an exec of an entrypoint with arguments. -/
structure Runtime where
  startOk : Bool
  readyAt : Nat → Bool
  fileExists : String → Bool
  httpStatus : String → Nat
  httpBody : String → String
  execOk : Bool
  execExit : String → List String → Int
  execOutput : String → List String → String

/-- Outcome of one probe invocation, following the error taxonomy of §7:
`harnessError` is fatal (container could not be started, readiness timeout
exceeded, exec invocation failed to run); `probeFailure` is a recorded
assertion failure (wrong file absence, wrong status or exit code, missing
substring). -/
inductive Outcome where
  | success
  | probeFailure
  | harnessError
deriving DecidableEq

/-- Container lifecycle events performed by a probe invocation: a container
start (recording the image and the injected environment) and a teardown
(stop and remove). -/
inductive Event where
  | start (image : String) (env : List (String × String))
  | terminate
deriving DecidableEq

/-- Number of containers started in a trace. -/
def startCount (tr : List Event) : Nat :=
  tr.countP fun ev => match ev with
    | .start _ _ => true
    | _ => false

/-- Number of containers stopped and removed in a trace. -/
def termCount (tr : List Event) : Nat :=
  tr.countP fun ev => match ev with
    | .terminate => true
    | _ => false

/-- Modelled from the spec: the fixed retry interval of the readiness poll
(§5: "a bounded blocking poll with a fixed timeout and retry interval"); the
spec fixes no concrete value, one time unit is used. -/
def defaultRetryInterval : Nat := 1

/-- Modelled from the spec: the fixed default readiness timeout (§4.2
"bounded wait, default timeout applies"); the spec fixes no concrete value,
sixty time units are used. -/
def defaultTimeout : Nat := 60

/-- The bounded poll loop: at most `fuel` attempts, observing readiness at
times `t0, t0 + interval, t0 + 2 * interval, …`; returns the first time at
which the container was observed ready, or `none` when the fuel is
exhausted. -/
def pollLoop (ready : Nat → Bool) (interval : Nat) : Nat → Nat → Option Nat
  | 0, _ => none
  | fuel + 1, t0 => if ready t0 then some t0 else pollLoop ready interval fuel (t0 + interval)

/-- Modelled from the spec: waiting for container readiness (§5) is a bounded
blocking poll with the fixed timeout and retry interval: it polls from time 0
in steps of `interval` and gives up once the timeout is exceeded, so it makes
at most `timeout / interval + 1` attempts. -/
def waitForReady (ready : Nat → Bool) (interval timeout : Nat) : Option Nat :=
  pollLoop ready interval (timeout / interval + 1) 0

/-- Substring test on character lists: does the list start with the needle? -/
def charsStartWith : List Char → List Char → Bool
  | [], _ => true
  | _ :: _, [] => false
  | c :: cs, d :: ds => c == d && charsStartWith cs ds

/-- Substring test on character lists: does the needle occur anywhere? -/
def charsContain (needle : List Char) : List Char → Bool
  | [] => charsStartWith needle []
  | d :: ds => charsStartWith needle (d :: ds) || charsContain needle ds

/-- Does the string `s` contain `sub` as a substring? -/
def strContains (s sub : String) : Bool :=
  charsContain sub.data s.data

/-- The HTTP Check assertion (§4.2): the response status code equals the
expected code and, when a body substring was specified, the response body
contains it. -/
def checkHTTP (rt : Runtime) (path : String) (expectedStatus : Nat)
    (bodySubstring : Option String) : Bool :=
  (rt.httpStatus path == expectedStatus) &&
    (match bodySubstring with
     | none => true
     | some s => strContains (rt.httpBody path) s)

/-- The Command Check assertion (§4.2): the exit code of the exec performed
inside the container matches the expectation and, when an output substring
was specified, the combined output contains it. -/
def checkCommand (rt : Runtime) (entrypoint : String) (args : List String)
    (expectedExit : Int) (outputSubstring : Option String) : Bool :=
  (rt.execExit entrypoint args == expectedExit) &&
    (match outputSubstring with
     | none => true
     | some s => strContains (rt.execOutput entrypoint args) s)

/-- The check a ready container is subjected to, per expectation variant
(§4.2): a failed assertion is a `probeFailure`; for a Command Check an exec
invocation that itself fails to run is a `harnessError` (§7). -/
def probeCheck (rt : Runtime) : Expectation → Outcome
  | .file path => if rt.fileExists path then .success else .probeFailure
  | .http path _ st sub => if checkHTTP rt path st sub then .success else .probeFailure
  | .command entry args xc sub =>
      if rt.execOk then
        if checkCommand rt entry args xc sub then .success else .probeFailure
      else .harnessError

/-- Modelled from the spec: one probe invocation of the Container Probe
Harness (§4.2, §5, §7), whose implementation is not under `src/`.  It
attempts to start one container from the image with the configured
environment; a start failure is a fatal `harnessError` (no container was
created).  A started container is unconditionally stopped and removed before
the invocation returns, on every exit path.  After the start, the bounded
readiness poll runs; exceeding the timeout is a fatal `harnessError` (§5,
§7); otherwise the expectation's check decides the outcome.  The returned
trace lists the lifecycle events performed. -/
def runProbe (rt : Runtime) (image : String) (config : Option ContainerConfig)
    (e : Expectation) : List Event × Outcome :=
  if rt.startOk then
    match waitForReady rt.readyAt defaultRetryInterval defaultTimeout with
    | none => ([.start image (configEnv config), .terminate], .harnessError)
    | some _ => ([.start image (configEnv config), .terminate], probeCheck rt e)
  else ([], .harnessError)

/-- Modelled from the spec: `testhelpers.TestFileExists` runs a File Presence
probe for the given path against a fresh container of the image. -/
def TestFileExists (rt : Runtime) (image : String) (path : String)
    (config : Option ContainerConfig) : List Event × Outcome :=
  runProbe rt image config (.file path)

/-- Modelled from the spec: `testhelpers.TestHTTPEndpoint` runs an HTTP Check
probe against a fresh container of the image. -/
def TestHTTPEndpoint (rt : Runtime) (image : String) (path : String) (port : Nat)
    (expectedStatus : Nat) (bodySubstring : Option String)
    (config : Option ContainerConfig) : List Event × Outcome :=
  runProbe rt image config (.http path port expectedStatus bodySubstring)

/-- Modelled from the spec: `testhelpers.TestCommandSucceeds` runs a Command
Check probe asserting the exec of the entrypoint with the given arguments
exits with code 0. -/
def TestCommandSucceeds (rt : Runtime) (image : String)
    (config : Option ContainerConfig) (entrypoint : String) (args : List String) :
    List Event × Outcome :=
  runProbe rt image config (.command entrypoint args 0 none)

/-- Modelled from the spec: a test case runs its expectations in order; a
fatal `harnessError` aborts the test case immediately (remaining siblings do
not run), while any other outcome is recorded as this expectation's assertion
result and the remaining siblings still execute (§4.2, §7). -/
def runTestCase (rt : Runtime) (image : String) (config : Option ContainerConfig) :
    List Expectation → List (Expectation × Outcome)
  | [] => []
  | e :: rest =>
    if (runProbe rt image config e).2 = Outcome.harnessError then
      [(e, Outcome.harnessError)]
    else
      (e, (runProbe rt image config e).2) :: runTestCase rt image config rest

/-- A healthy runtime: the container starts, is immediately ready, its
filesystem holds `/usr/local/bin/yq`, its HTTP server answers 200 with body
"service healthy", and execs run and exit with code 0. -/
def rtGood : Runtime :=
  ⟨true, fun _ => true, fun p => p == "/usr/local/bin/yq", fun _ => 200,
   fun _ => "service healthy", true, fun _ _ => 0, fun _ _ => "done"⟩

/-- A runtime whose image cannot be pulled or started. -/
def rtNoStart : Runtime :=
  ⟨false, fun _ => true, fun _ => true, fun _ => 200, fun _ => "", true,
   fun _ _ => 0, fun _ _ => ""⟩

/-- A runtime whose container starts but never becomes ready. -/
def rtNeverReady : Runtime :=
  ⟨true, fun _ => false, fun _ => true, fun _ => 200, fun _ => "", true,
   fun _ _ => 0, fun _ _ => ""⟩

/-- A runtime whose container starts and is ready but fails every assertion:
no file present, HTTP answers 503 with empty body, execs exit with code 1. -/
def rtBadFile : Runtime :=
  ⟨true, fun _ => true, fun _ => false, fun _ => 503, fun _ => "", true,
   fun _ _ => 1, fun _ _ => ""⟩

/-- Counterexample to C2 as stated: an invocation whose image cannot be
started ends in an internal (harness) error having started zero containers,
not exactly one. -/
theorem runProbe_start_failure_counterexample :
    (runProbe rtNoStart "ghcr.io/example/app:rolling" none
        (Expectation.file "/app/script.sh")).2 = Outcome.harnessError ∧
    startCount (runProbe rtNoStart "ghcr.io/example/app:rolling" none
        (Expectation.file "/app/script.sh")).1 = 0 := by
  constructor <;> rfl

/-- C2 (amended): every probe invocation starts at most one container —
exactly one whenever the image can be started — and every started container
is stopped and removed exactly once before the invocation returns, so no
container is left running afterward. -/
theorem runProbe_teardown (rt : Runtime) (image : String)
    (config : Option ContainerConfig) (e : Expectation) :
    startCount (runProbe rt image config e).1 ≤ 1 ∧
    termCount (runProbe rt image config e).1 = startCount (runProbe rt image config e).1 ∧
    (rt.startOk = true → startCount (runProbe rt image config e).1 = 1) := by
  unfold runProbe
  by_cases h : rt.startOk
  · rcases hw : waitForReady rt.readyAt defaultRetryInterval defaultTimeout with _ | t <;>
      simp [h, hw, startCount, termCount]
  · simp [h, startCount, termCount]

/-- Witness for C2 (amended): against a healthy runtime exactly one container
is started and exactly one is torn down. -/
theorem runProbe_teardown_witness :
    startCount (runProbe rtGood "img" none (Expectation.file "/usr/local/bin/yq")).1 = 1 ∧
    termCount (runProbe rtGood "img" none (Expectation.file "/usr/local/bin/yq")).1 =
      startCount (runProbe rtGood "img" none (Expectation.file "/usr/local/bin/yq")).1 := by
  refine ⟨?_, ?_⟩
  · exact (runProbe_teardown rtGood "img" none (Expectation.file "/usr/local/bin/yq")).2.2 rfl
  · exact (runProbe_teardown rtGood "img" none (Expectation.file "/usr/local/bin/yq")).2.1

/-- C3: a fatal harness-level failure aborts the enclosing test case
immediately (the remaining sibling expectations do not run and nothing is
retried), while any non-fatal outcome — success or probe-level assertion
failure — is recorded for that expectation and the sibling expectations in
the same test case still execute. -/
theorem runTestCase_failure_semantics (rt : Runtime) (image : String)
    (config : Option ContainerConfig) (e : Expectation) (rest : List Expectation) :
    ((runProbe rt image config e).2 = Outcome.harnessError →
      runTestCase rt image config (e :: rest) = [(e, Outcome.harnessError)]) ∧
    ((runProbe rt image config e).2 ≠ Outcome.harnessError →
      runTestCase rt image config (e :: rest) =
        (e, (runProbe rt image config e).2) :: runTestCase rt image config rest) := by
  constructor
  · intro h
    simp [runTestCase, h]
  · intro h
    simp [runTestCase, h]

/-- Witness for C3: with a ready container failing its assertions both
expectations of a test case run and both are recorded as probe failures,
while with an image that cannot start the test case stops at its first
expectation with a harness error. -/
theorem runTestCase_failure_semantics_witness :
    (runTestCase rtBadFile "img" none [Expectation.file "/a", Expectation.file "/b"] =
      [(Expectation.file "/a", Outcome.probeFailure),
       (Expectation.file "/b", Outcome.probeFailure)]) ∧
    (runTestCase rtNoStart "img" none [Expectation.file "/a", Expectation.file "/b"] =
      [(Expectation.file "/a", Outcome.harnessError)]) := by
  constructor
  · have h := (runTestCase_failure_semantics rtBadFile "img" none
        (Expectation.file "/a") [Expectation.file "/b"]).2 (by decide)
    rw [h]
    decide
  · exact (runTestCase_failure_semantics rtNoStart "img" none
        (Expectation.file "/a") [Expectation.file "/b"]).1 (by decide)

/-- Counterexample to C4 as stated: when the container never reaches running
state within the timeout the File Presence probe reports the fatal
`harnessError` of the error taxonomy (§5, §7), not `probeFailure`. -/
theorem TestFileExists_timeout_counterexample :
    (TestFileExists rtNeverReady "img" "/app/script.sh" none).2 = Outcome.harnessError ∧
    (TestFileExists rtNeverReady "img" "/app/script.sh" none).2 ≠ Outcome.probeFailure := by
  constructor <;> decide

/-- C4 (amended): for a started container, if the readiness wait succeeds the
File Presence probe reports success exactly when the path exists in the
container filesystem and `probeFailure` exactly when it is absent; if the
container never reaches running state within the timeout the probe reports
the fatal `harnessError`, not `probeFailure`. -/
theorem TestFileExists_spec (rt : Runtime) (image path : String)
    (config : Option ContainerConfig) (hstart : rt.startOk = true) :
    ((waitForReady rt.readyAt defaultRetryInterval defaultTimeout).isSome →
      (((TestFileExists rt image path config).2 = Outcome.success ↔
          rt.fileExists path = true) ∧
       ((TestFileExists rt image path config).2 = Outcome.probeFailure ↔
          rt.fileExists path = false))) ∧
    (waitForReady rt.readyAt defaultRetryInterval defaultTimeout = none →
      (TestFileExists rt image path config).2 = Outcome.harnessError) := by
  constructor
  · intro hready
    rcases hw : waitForReady rt.readyAt defaultRetryInterval defaultTimeout with _ | t
    · rw [hw] at hready
      simp at hready
    · unfold TestFileExists runProbe
      by_cases hf : rt.fileExists path <;>
        simp [hstart, hw, probeCheck, hf]
  · intro hw
    unfold TestFileExists runProbe
    simp [hstart, hw]

/-- Witness for C4 (amended): a present path succeeds, an absent path is a
probe failure, and a never-ready container is a harness error. -/
theorem TestFileExists_spec_witness :
    (TestFileExists rtGood "img" "/usr/local/bin/yq" none).2 = Outcome.success ∧
    (TestFileExists rtBadFile "img" "/usr/local/bin/yq" none).2 = Outcome.probeFailure ∧
    (TestFileExists rtNeverReady "img" "/usr/local/bin/yq" none).2 = Outcome.harnessError := by
  refine ⟨?_, ?_, ?_⟩
  · exact (((TestFileExists_spec rtGood "img" "/usr/local/bin/yq" none rfl).1
      (by decide)).1).mpr (by decide)
  · exact (((TestFileExists_spec rtBadFile "img" "/usr/local/bin/yq" none rfl).1
      (by decide)).2).mpr (by decide)
  · exact (TestFileExists_spec rtNeverReady "img" "/usr/local/bin/yq" none rfl).2 (by decide)

/-- The HTTP Check assertion holds, as a proposition: the status matches and
any specified body substring occurs in the body. -/
theorem checkHTTP_eq_true (rt : Runtime) (path : String) (expectedStatus : Nat)
    (bodySubstring : Option String) :
    checkHTTP rt path expectedStatus bodySubstring = true ↔
      (rt.httpStatus path = expectedStatus ∧
       ∀ s, bodySubstring = some s → strContains (rt.httpBody path) s = true) := by
  unfold checkHTTP
  rcases bodySubstring with _ | s <;> simp [Bool.and_eq_true]

/-- C5: for a started, ready container, the HTTP Check probe succeeds if and
only if the response status code equals the expected code and, when a body
substring is specified, the response body contains it; and it reports a
probe failure exactly when that conjunction fails, so breaking either
condition alone flips the probe to failure. -/
theorem TestHTTPEndpoint_iff (rt : Runtime) (image path : String) (port : Nat)
    (expectedStatus : Nat) (bodySubstring : Option String)
    (config : Option ContainerConfig) (hstart : rt.startOk = true)
    (hready : (waitForReady rt.readyAt defaultRetryInterval defaultTimeout).isSome) :
    ((TestHTTPEndpoint rt image path port expectedStatus bodySubstring config).2 =
        Outcome.success ↔
      (rt.httpStatus path = expectedStatus ∧
       ∀ s, bodySubstring = some s → strContains (rt.httpBody path) s = true)) ∧
    ((TestHTTPEndpoint rt image path port expectedStatus bodySubstring config).2 =
        Outcome.probeFailure ↔
      ¬(rt.httpStatus path = expectedStatus ∧
        ∀ s, bodySubstring = some s → strContains (rt.httpBody path) s = true)) := by
  rcases hw : waitForReady rt.readyAt defaultRetryInterval defaultTimeout with _ | t
  · rw [hw] at hready
    simp at hready
  · unfold TestHTTPEndpoint runProbe
    rw [← checkHTTP_eq_true]
    by_cases hc : checkHTTP rt path expectedStatus bodySubstring <;>
      simp [hstart, hw, probeCheck, hc]

/-- Witness for C5: expected status and substring both matching succeeds;
wrong expected status with the substring still matching fails; matching
status with an absent substring fails. -/
theorem TestHTTPEndpoint_iff_witness :
    (TestHTTPEndpoint rtGood "img" "/healthz" 8080 200 (some "healthy") none).2 =
      Outcome.success ∧
    (TestHTTPEndpoint rtGood "img" "/healthz" 8080 503 (some "healthy") none).2 =
      Outcome.probeFailure ∧
    (TestHTTPEndpoint rtGood "img" "/healthz" 8080 200 (some "absent") none).2 =
      Outcome.probeFailure := by
  refine ⟨?_, ?_, ?_⟩
  · exact (TestHTTPEndpoint_iff rtGood "img" "/healthz" 8080 200 (some "healthy") none
      rfl (by decide)).1.mpr ⟨by decide, by
        intro s hs
        injection hs with hs
        subst hs
        decide⟩
  · exact (TestHTTPEndpoint_iff rtGood "img" "/healthz" 8080 503 (some "healthy") none
      rfl (by decide)).2.mpr (fun h => absurd h.1 (by decide))
  · exact (TestHTTPEndpoint_iff rtGood "img" "/healthz" 8080 200 (some "absent") none
      rfl (by decide)).2.mpr (fun h => absurd (h.2 "absent" rfl) (by decide))

/-- C6: for a started, ready container whose exec invocation runs, the exit
code the Command Check probe compares against the expectation is the actual
exit code of the exec performed inside the container: `TestCommandSucceeds`
succeeds exactly when the actual exit code is 0, and for an arbitrary
expected exit code a successful probe forces the actual exit code to equal
it. -/
theorem TestCommandSucceeds_exit_code (rt : Runtime) (image : String)
    (config : Option ContainerConfig) (entrypoint : String) (args : List String)
    (hstart : rt.startOk = true)
    (hready : (waitForReady rt.readyAt defaultRetryInterval defaultTimeout).isSome)
    (hexec : rt.execOk = true) :
    ((TestCommandSucceeds rt image config entrypoint args).2 = Outcome.success ↔
      rt.execExit entrypoint args = 0) ∧
    (∀ (xc : Int) (sub : Option String),
      (runProbe rt image config (Expectation.command entrypoint args xc sub)).2 =
          Outcome.success →
        rt.execExit entrypoint args = xc) := by
  rcases hw : waitForReady rt.readyAt defaultRetryInterval defaultTimeout with _ | t
  · rw [hw] at hready
    simp at hready
  · constructor
    · unfold TestCommandSucceeds runProbe
      by_cases hc : rt.execExit entrypoint args = 0 <;>
        simp [hstart, hw, probeCheck, hexec, checkCommand, hc]
    · intro xc sub h
      unfold runProbe at h
      simp only [hstart, if_true, hw] at h
      unfold probeCheck at h
      rw [hexec] at h
      by_cases hc : checkCommand rt entrypoint args xc sub
      · have := hc
        unfold checkCommand at this
        rw [Bool.and_eq_true, beq_iff_eq] at this
        exact this.1
      · simp [hc] at h

/-- Witness for C6: against the healthy runtime, whose execs exit with code
0, `TestCommandSucceeds` succeeds. -/
theorem TestCommandSucceeds_exit_code_witness :
    (TestCommandSucceeds rtGood "img" none "/usr/local/bin/yq" ["--version"]).2 =
      Outcome.success := by
  exact (TestCommandSucceeds_exit_code rtGood "img" none "/usr/local/bin/yq"
    ["--version"] rfl (by decide) rfl).1.mpr (by decide)

/-- A successful poll observed readiness at one of its attempt times: at most
`fuel` attempts spaced `interval` apart from the start time. -/
theorem pollLoop_some_bound (ready : Nat → Bool) (interval : Nat) :
    ∀ fuel t0 n, pollLoop ready interval fuel t0 = some n →
      ready n = true ∧ ∃ k, k + 1 ≤ fuel ∧ n = t0 + k * interval := by
  intro fuel
  induction fuel with
  | zero =>
    intro t0 n h
    simp [pollLoop] at h
  | succ f ih =>
    intro t0 n h
    unfold pollLoop at h
    by_cases hr : ready t0
    · rw [if_pos hr] at h
      injection h with h
      subst h
      exact ⟨hr, 0, Nat.succ_le_succ (Nat.zero_le f), by simp⟩
    · rw [if_neg hr] at h
      obtain ⟨hn, k, hk, hkn⟩ := ih (t0 + interval) n h
      refine ⟨hn, k + 1, Nat.succ_le_succ hk, ?_⟩
      rw [hkn]
      ring

/-- C7: the readiness wait is a bounded poll with the fixed retry interval
and timeout that always terminates — when it reports readiness it did so at
an observation time within the timeout at which the container was actually
ready, and when it exhausts the timeout the probe invocation ends in the
fatal `harnessError` rather than silently passing. -/
theorem waitForReady_bounded_and_fatal (ready : Nat → Bool) :
    (∀ n, waitForReady ready defaultRetryInterval defaultTimeout = some n →
      n ≤ defaultTimeout ∧ ready n = true) ∧
    (∀ (rt : Runtime) (image : String) (config : Option ContainerConfig)
        (e : Expectation),
      rt.startOk = true → rt.readyAt = ready →
      waitForReady ready defaultRetryInterval defaultTimeout = none →
      (runProbe rt image config e).2 = Outcome.harnessError) := by
  constructor
  · intro n h
    obtain ⟨hn, k, hk, hkn⟩ :=
      pollLoop_some_bound ready defaultRetryInterval
        (defaultTimeout / defaultRetryInterval + 1) 0 n h
    refine ⟨?_, hn⟩
    simp [defaultRetryInterval] at hkn
    simp [defaultRetryInterval, defaultTimeout] at hk
    simp [defaultTimeout]
    omega
  · intro rt image config e hstart hr hw
    unfold runProbe
    rw [hr]
    simp [hstart, hw]

/-- Witness for C7: a container ready from time 3 onward is reported ready
within the timeout at a time where it really was ready, and a never-ready
container turns the probe invocation into a harness error. -/
theorem waitForReady_bounded_and_fatal_witness :
    (3 ≤ defaultTimeout ∧ ((3 : Nat) ≥ 3 : Bool) = true) ∧
    (runProbe rtNeverReady "img" none (Expectation.file "/a")).2 =
      Outcome.harnessError := by
  constructor
  · exact (waitForReady_bounded_and_fatal (fun t => t ≥ 3)).1 3 (by decide)
  · exact (waitForReady_bounded_and_fatal (fun _ => false)).2 rtNeverReady "img" none
      (Expectation.file "/a") rfl rfl (by decide)

/-- C9: `TestFileExists` accepts a nil Container Configuration: for every
runtime, image reference and file path, an invocation with no configuration
performs exactly the lifecycle events and produces exactly the outcome of an
invocation with an empty configuration — no environment variables are
injected and no error branch is reachable for the nil case. -/
theorem TestFileExists_nil_config (rt : Runtime) (image path : String) :
    TestFileExists rt image path none =
      TestFileExists rt image path (some (ContainerConfig.mk [])) := rfl
